import Mathlib

/-!
Verification of the radius-ratio coordination-number classifier of
`src/app.py` (CoordinatioNumber).

The computational core of the application is:
  * three constant tables `LIMITES_NC`, `NC_TIPICOS`, `GEOMETRIAS`
    (app.py lines 38-40);
  * the ratio `relacion_r_R = radio_cation / radio_anion if radio_anion > 0
    else 0` (line 180);
  * a linear scan that initialises the prediction to the last table entry
    and replaces it by the first entry whose limit strictly exceeds the
    ratio (lines 182-189);
  * the derived transition radius `R_transicion = radio_cation / 0.225`
    (line 283).

Python floats are modelled by exact rationals `ℚ`; every numeric literal of
the source is exactly representable and every comparison the claims exercise
is robust, so the rational model coincides with the float computation on all
inputs considered here.
-/

namespace CoordinatioNumber

/-- app.py line 38: `LIMITES_NC = [0.155, 0.225, 0.414, 0.732, 1.000]`. -/
def LIMITES_NC : List ℚ := [155/1000, 225/1000, 414/1000, 732/1000, 1]

/-- app.py line 39: `NC_TIPICOS = [3, 4, 6, 8, 12]`. -/
def NC_TIPICOS : List ℕ := [3, 4, 6, 8, 12]

/-- app.py line 40: the geometry labels (Spanish strings in the source). -/
def GEOMETRIAS : List String :=
  ["Triangular", "Tetraédrica", "Octaédrica", "Cúbica", "Cuboctaédrica (Compacta)"]

/-- app.py line 180:
`relacion_r_R = radio_cation / radio_anion if radio_anion > 0 else 0`. -/
def relacion_r_R (radio_cation radio_anion : ℚ) : ℚ :=
  if radio_anion > 0 then radio_cation / radio_anion else 0

/-- The triples `(limite, nc, geometria)` the loop of lines 185-189 walks:
`enumerate(LIMITES_NC)` paired with `NC_TIPICOS[i]` and `GEOMETRIAS[i]`. -/
def TABLA : List (ℚ × ℕ × String) := LIMITES_NC.zip (NC_TIPICOS.zip GEOMETRIAS)

/-- app.py lines 185-189: the scan with `break`; `d` is the value the
prediction holds when no limit exceeds the ratio (the initialisation of
lines 182-183). -/
def buscaNC (ratio : ℚ) (d : ℕ × String) : List (ℚ × ℕ × String) → ℕ × String
  | [] => d
  | (limite, nc, geo) :: resto =>
      if ratio < limite then (nc, geo) else buscaNC ratio d resto

/-- Lines 182-189 as a function of the ratio: initialise to
`(NC_TIPICOS[-1], GEOMETRIAS[-1])` and scan `TABLA`. -/
def nc_geo_predicho (ratio : ℚ) : ℕ × String :=
  buscaNC ratio (NC_TIPICOS.getLastD 0, GEOMETRIAS.getLastD "") TABLA

/-- The whole computation of lines 180-189: the `classify` operation of the
spec, returning `(ratio, coordination_number, geometry_name)`. -/
def classify (radio_cation radio_anion : ℚ) : ℚ × ℕ × String :=
  (relacion_r_R radio_cation radio_anion,
   nc_geo_predicho (relacion_r_R radio_cation radio_anion))

/-- app.py line 283: `R_transicion = radio_cation / 0.225`. -/
def R_transicion (radio_cation : ℚ) : ℚ := radio_cation / (225/1000)

/-- The spec's wording of the classification algorithm, for claim C1:
"scan the threshold table in ascending order of lower_bound; the first entry
whose lower_bound is STRICTLY GREATER than ratio determines the predicted
pair; if ratio is greater than or equal to every tabled lower_bound, the
result defaults to the LARGEST entry". -/
def classifySpecScan (ratio : ℚ) : ℕ × String :=
  match TABLA.find? (fun e => decide (ratio < e.1)) with
  | some e => e.2
  | none => (TABLA.getLastD (0, 0, "")).2

/-! ### Evaluation lemmas -/

theorem TABLA_eq :
    TABLA = [(155/1000, 3, "Triangular"), (225/1000, 4, "Tetraédrica"),
             (414/1000, 6, "Octaédrica"), (732/1000, 8, "Cúbica"),
             (1, 12, "Cuboctaédrica (Compacta)")] := rfl

theorem default_eq :
    (NC_TIPICOS.getLastD 0, GEOMETRIAS.getLastD "") =
      ((12 : ℕ), "Cuboctaédrica (Compacta)") := rfl

/-- Band `[0, 0.155)` (and anything below): the scan stops at the first
entry. -/
theorem nc_geo_band3 (r : ℚ) (h : r < 155/1000) :
    nc_geo_predicho r = (3, "Triangular") := by
  rw [nc_geo_predicho, TABLA_eq]
  simp only [buscaNC]
  rw [if_pos h]

/-- Band `[0.155, 0.225)`. -/
theorem nc_geo_band4 (r : ℚ) (h1 : 155/1000 ≤ r) (h2 : r < 225/1000) :
    nc_geo_predicho r = (4, "Tetraédrica") := by
  rw [nc_geo_predicho, TABLA_eq]
  simp only [buscaNC]
  rw [if_neg (not_lt.2 h1), if_pos h2]

/-- Band `[0.225, 0.414)`. -/
theorem nc_geo_band6 (r : ℚ) (h1 : 225/1000 ≤ r) (h2 : r < 414/1000) :
    nc_geo_predicho r = (6, "Octaédrica") := by
  rw [nc_geo_predicho, TABLA_eq]
  simp only [buscaNC]
  rw [if_neg (not_lt.2 (by linarith : (155/1000 : ℚ) ≤ r)),
      if_neg (not_lt.2 h1), if_pos h2]

/-- Band `[0.414, 0.732)`. -/
theorem nc_geo_band8 (r : ℚ) (h1 : 414/1000 ≤ r) (h2 : r < 732/1000) :
    nc_geo_predicho r = (8, "Cúbica") := by
  rw [nc_geo_predicho, TABLA_eq]
  simp only [buscaNC]
  rw [if_neg (not_lt.2 (by linarith : (155/1000 : ℚ) ≤ r)),
      if_neg (not_lt.2 (by linarith : (225/1000 : ℚ) ≤ r)),
      if_neg (not_lt.2 h1), if_pos h2]

/-- Band `[0.732, 1)`. -/
theorem nc_geo_band12lo (r : ℚ) (h1 : 732/1000 ≤ r) (h2 : r < 1) :
    nc_geo_predicho r = (12, "Cuboctaédrica (Compacta)") := by
  rw [nc_geo_predicho, TABLA_eq]
  simp only [buscaNC]
  rw [if_neg (not_lt.2 (by linarith : (155/1000 : ℚ) ≤ r)),
      if_neg (not_lt.2 (by linarith : (225/1000 : ℚ) ≤ r)),
      if_neg (not_lt.2 (by linarith : (414/1000 : ℚ) ≤ r)),
      if_neg (not_lt.2 h1), if_pos h2]

/-- The default bucket `[1, ∞)`: no limit exceeds the ratio, the scan falls
through to the initialisation `(NC_TIPICOS[-1], GEOMETRIAS[-1])`. -/
theorem nc_geo_band12hi (r : ℚ) (h : 1 ≤ r) :
    nc_geo_predicho r = (12, "Cuboctaédrica (Compacta)") := by
  rw [nc_geo_predicho, TABLA_eq]
  simp only [buscaNC]
  rw [if_neg (not_lt.2 (by linarith : (155/1000 : ℚ) ≤ r)),
      if_neg (not_lt.2 (by linarith : (225/1000 : ℚ) ≤ r)),
      if_neg (not_lt.2 (by linarith : (414/1000 : ℚ) ≤ r)),
      if_neg (not_lt.2 (by linarith : (732/1000 : ℚ) ≤ r)),
      if_neg (not_lt.2 h)]
  exact default_eq

/-- The spec's scan (first entry whose bound strictly exceeds the ratio,
defaulting to the largest entry) agrees with the loop of lines 182-189. -/
theorem specScan_eq (r : ℚ) : classifySpecScan r = nc_geo_predicho r := by
  rcases lt_or_le r (155/1000) with h1 | h1
  · rw [nc_geo_band3 r h1, classifySpecScan, TABLA_eq,
      List.find?_cons_of_pos _ (by simpa using h1)]
  rcases lt_or_le r (225/1000) with h2 | h2
  · rw [nc_geo_band4 r h1 h2, classifySpecScan, TABLA_eq,
      List.find?_cons_of_neg _ (by simpa using not_lt.2 h1),
      List.find?_cons_of_pos _ (by simpa using h2)]
  rcases lt_or_le r (414/1000) with h3 | h3
  · rw [nc_geo_band6 r h2 h3, classifySpecScan, TABLA_eq,
      List.find?_cons_of_neg _ (by simpa using not_lt.2 h1),
      List.find?_cons_of_neg _ (by simpa using not_lt.2 h2),
      List.find?_cons_of_pos _ (by simpa using h3)]
  rcases lt_or_le r (732/1000) with h4 | h4
  · rw [nc_geo_band8 r h3 h4, classifySpecScan, TABLA_eq,
      List.find?_cons_of_neg _ (by simpa using not_lt.2 h1),
      List.find?_cons_of_neg _ (by simpa using not_lt.2 h2),
      List.find?_cons_of_neg _ (by simpa using not_lt.2 h3),
      List.find?_cons_of_pos _ (by simpa using h4)]
  rcases lt_or_le r 1 with h5 | h5
  · rw [nc_geo_band12lo r h4 h5, classifySpecScan, TABLA_eq,
      List.find?_cons_of_neg _ (by simpa using not_lt.2 h1),
      List.find?_cons_of_neg _ (by simpa using not_lt.2 h2),
      List.find?_cons_of_neg _ (by simpa using not_lt.2 h3),
      List.find?_cons_of_neg _ (by simpa using not_lt.2 h4),
      List.find?_cons_of_pos _ (by simpa using h5)]
  · rw [nc_geo_band12hi r h5, classifySpecScan, TABLA_eq,
      List.find?_cons_of_neg _ (by simpa using not_lt.2 h1),
      List.find?_cons_of_neg _ (by simpa using not_lt.2 h2),
      List.find?_cons_of_neg _ (by simpa using not_lt.2 h3),
      List.find?_cons_of_neg _ (by simpa using not_lt.2 h4),
      List.find?_cons_of_neg _ (by simpa using not_lt.2 h5)]
    rfl

/-- A larger ratio never produces a smaller predicted coordination number. -/
theorem nc_geo_mono (r r' : ℚ) (h : r ≤ r') :
    (nc_geo_predicho r).1 ≤ (nc_geo_predicho r').1 := by
  rw [nc_geo_predicho, nc_geo_predicho, TABLA_eq, default_eq]
  simp only [buscaNC]
  split_ifs <;> first | (norm_num; done) | (exfalso; linarith)

/-! ### Claims -/

/-- C1: for every input pair with `anion_radius > 0`, `classify` computes
`ratio = cation_radius / anion_radius` and returns the first threshold-table
entry, scanned in ascending order of lower bound, whose lower bound is
strictly greater than the ratio; when `ratio ≥ 1` no lower bound exceeds it
and the largest entry — coordination number 12, the close-packed geometry —
is returned. -/
theorem classify_is_first_exceeding_scan (rc ra : ℚ) (ha : 0 < ra) :
    (classify rc ra).1 = rc / ra ∧
    (classify rc ra).2 = classifySpecScan (rc / ra) ∧
    (1 ≤ rc / ra →
      (classify rc ra).2 = (12, "Cuboctaédrica (Compacta)")) := by
  have hr : relacion_r_R rc ra = rc / ra := if_pos ha
  refine ⟨hr, ?_, fun h1 => ?_⟩
  · show nc_geo_predicho (relacion_r_R rc ra) = _
    rw [hr, specScan_eq]
  · show nc_geo_predicho (relacion_r_R rc ra) = _
    rw [hr, nc_geo_band12hi _ h1]

theorem classify_is_first_exceeding_scan_witness :
    (0 : ℚ) < 2 ∧
      ((classify 1 2).1 = 1 / 2 ∧
       (classify 1 2).2 = classifySpecScan (1 / 2) ∧
       (1 ≤ (1 : ℚ) / 2 →
         (classify 1 2).2 = (12, "Cuboctaédrica (Compacta)"))) :=
  ⟨by norm_num, classify_is_first_exceeding_scan 1 2 (by norm_num)⟩

/-- C2, evaluation at the failing input: the claim (and the app's own
threshold table, chart shading and theory text, which put ratio 0.55 in the
octahedral NC = 6 band `[0.414, 0.732)`) says `classify(0.55, 1.0)` is
octahedral with coordination number 6, but the scan of lines 185-189 stops
at the first limit exceeding 0.55 — namely 0.732 at index 3 — and returns
coordination number 8 with the cubic geometry: the loop is off by one with
respect to the "lower bound" semantics the app itself displays. -/
theorem classify_nacl_example_evaluates_to_cubic :
    classify (55/100) 1 = (55/100, 8, "Cúbica") := by
  have hr : relacion_r_R (55/100) 1 = 55/100 := by
    rw [relacion_r_R, if_pos one_pos, div_one]
  rw [classify, hr, nc_geo_band8 _ (by norm_num) (by norm_num)]

/-- C4: when `anion_radius ≤ 0` the ratio is the sentinel 0 (line 180's
guard), not an error, so the result is the lowest band: coordination
number 3, triangular. In particular `classify 1 0 = (0, 3, Triangular)`. -/
theorem classify_sentinel_zero_anion (rc ra : ℚ) (ha : ra ≤ 0) :
    classify rc ra = (0, 3, "Triangular") := by
  have hr : relacion_r_R rc ra = 0 := if_neg (not_lt.2 ha)
  rw [classify, hr, nc_geo_band3 0 (by norm_num)]

theorem classify_sentinel_zero_anion_witness :
    (0 : ℚ) ≤ 0 ∧ classify 1 0 = (0, 3, "Triangular") :=
  ⟨le_refl 0, classify_sentinel_zero_anion 1 0 (le_refl 0)⟩

/-- C5 counterexample: the geometry strings of the source (app.py line 40)
are NOT the English strings the claim quotes — the source stores Spanish
labels ("Tetraédrica", "Octaédrica", "Cúbica", "Cuboctaédrica (Compacta)"),
so the table is not exactly the claimed sequence of tuples. -/
theorem geometrias_not_the_claimed_strings :
    GEOMETRIAS ≠ ["Triangular", "Tetrahedral", "Octahedral", "Cubic",
                  "Cuboctahedral/close-packed"] := by decide

/-- C5 amended: the threshold table is exactly the ordered sequence of five
tuples (0.155, 3, "Triangular"), (0.225, 4, "Tetraédrica"),
(0.414, 6, "Octaédrica"), (0.732, 8, "Cúbica"),
(1.000, 12, "Cuboctaédrica (Compacta)") — the same bounds, coordination
numbers and geometries as claimed, with the geometry names being the
source's Spanish labels — and the lower bounds are strictly increasing.
(The table is `def`-level constant data, hence immutable.) -/
theorem tabla_exact_and_sorted :
    TABLA = [(155/1000, 3, "Triangular"), (225/1000, 4, "Tetraédrica"),
             (414/1000, 6, "Octaédrica"), (732/1000, 8, "Cúbica"),
             (1, 12, "Cuboctaédrica (Compacta)")] ∧
    List.Chain' (· < ·) LIMITES_NC :=
  ⟨rfl, by norm_num [LIMITES_NC, List.chain'_cons, List.chain'_singleton]⟩

/-- C6: for every input pair whatsoever, the returned coordination number is
one of {3, 4, 6, 8, 12} and the geometry name is one of the five table
strings. -/
theorem classify_output_in_table (rc ra : ℚ) :
    (classify rc ra).2.1 ∈ NC_TIPICOS ∧ (classify rc ra).2.2 ∈ GEOMETRIAS := by
  have hcl : (classify rc ra).2 = nc_geo_predicho (relacion_r_R rc ra) := rfl
  rw [hcl]
  rcases lt_or_le (relacion_r_R rc ra) (155/1000) with h1 | h1
  · rw [nc_geo_band3 _ h1]; exact ⟨by decide, by decide⟩
  rcases lt_or_le (relacion_r_R rc ra) (225/1000) with h2 | h2
  · rw [nc_geo_band4 _ h1 h2]; exact ⟨by decide, by decide⟩
  rcases lt_or_le (relacion_r_R rc ra) (414/1000) with h3 | h3
  · rw [nc_geo_band6 _ h2 h3]; exact ⟨by decide, by decide⟩
  rcases lt_or_le (relacion_r_R rc ra) (732/1000) with h4 | h4
  · rw [nc_geo_band8 _ h3 h4]; exact ⟨by decide, by decide⟩
  rcases lt_or_le (relacion_r_R rc ra) 1 with h5 | h5
  · rw [nc_geo_band12lo _ h4 h5]; exact ⟨by decide, by decide⟩
  · rw [nc_geo_band12hi _ h5]; exact ⟨by decide, by decide⟩

/-- With an anion radius of 1 the ratio equals the cation radius, so
`classify x 1` classifies the ratio `x` itself. -/
theorem classify_one (x : ℚ) : classify x 1 = (x, nc_geo_predicho x) := by
  rw [classify, relacion_r_R, if_pos one_pos, div_one]

/-- C3: for every threshold `t` of the table (all five are enumerated), a
ratio `t - ε` for tiny positive `ε` (`ε ≤ 0.07`, the narrowest band width,
keeps `t - ε` inside the band strictly below `t`) is classified into the
band strictly below `t`, while a ratio of exactly `t` is classified into
the band whose lower endpoint is `t` — the next entry up, or the default
close-packed bucket above 1.000 — because the comparison of line 186 is a
strict less-than. Bands here are the ratio intervals the scan of lines
185-189 maps to a single entry: `(-∞, 0.155) ↦ (3, Triangular)`,
`[0.155, 0.225) ↦ (4, Tetraédrica)`, `[0.225, 0.414) ↦ (6, Octaédrica)`,
`[0.414, 0.732) ↦ (8, Cúbica)`, `[0.732, ∞) ↦ (12, Cuboctaédrica)`. -/
theorem classify_threshold_boundaries (ε : ℚ) (hε : 0 < ε)
    (hsmall : ε ≤ 7/100) :
    ((classify (155/1000 - ε) 1).2 = (3, "Triangular") ∧
      (classify (155/1000) 1).2 = (4, "Tetraédrica")) ∧
    ((classify (225/1000 - ε) 1).2 = (4, "Tetraédrica") ∧
      (classify (225/1000) 1).2 = (6, "Octaédrica")) ∧
    ((classify (414/1000 - ε) 1).2 = (6, "Octaédrica") ∧
      (classify (414/1000) 1).2 = (8, "Cúbica")) ∧
    ((classify (732/1000 - ε) 1).2 = (8, "Cúbica") ∧
      (classify (732/1000) 1).2 = (12, "Cuboctaédrica (Compacta)")) ∧
    ((classify (1 - ε) 1).2 = (12, "Cuboctaédrica (Compacta)") ∧
      (classify 1 1).2 = (12, "Cuboctaédrica (Compacta)")) := by
  simp only [classify_one]
  refine ⟨⟨?_, ?_⟩, ⟨?_, ?_⟩, ⟨?_, ?_⟩, ⟨?_, ?_⟩, ⟨?_, ?_⟩⟩
  · exact nc_geo_band3 _ (by linarith)
  · exact nc_geo_band4 _ (by norm_num) (by norm_num)
  · exact nc_geo_band4 _ (by linarith) (by linarith)
  · exact nc_geo_band6 _ (by norm_num) (by norm_num)
  · exact nc_geo_band6 _ (by linarith) (by linarith)
  · exact nc_geo_band8 _ (by norm_num) (by norm_num)
  · exact nc_geo_band8 _ (by linarith) (by linarith)
  · exact nc_geo_band12lo _ (by norm_num) (by norm_num)
  · exact nc_geo_band12lo _ (by linarith) (by linarith)
  · exact nc_geo_band12hi _ (by norm_num)

theorem classify_threshold_boundaries_witness :
    (0 : ℚ) < 1/100 ∧ (1 : ℚ)/100 ≤ 7/100 ∧
      (((classify (155/1000 - 1/100) 1).2 = (3, "Triangular") ∧
         (classify (155/1000) 1).2 = (4, "Tetraédrica")) ∧
       ((classify (225/1000 - 1/100) 1).2 = (4, "Tetraédrica") ∧
         (classify (225/1000) 1).2 = (6, "Octaédrica")) ∧
       ((classify (414/1000 - 1/100) 1).2 = (6, "Octaédrica") ∧
         (classify (414/1000) 1).2 = (8, "Cúbica")) ∧
       ((classify (732/1000 - 1/100) 1).2 = (8, "Cúbica") ∧
         (classify (732/1000) 1).2 = (12, "Cuboctaédrica (Compacta)")) ∧
       ((classify (1 - 1/100) 1).2 = (12, "Cuboctaédrica (Compacta)") ∧
         (classify 1 1).2 = (12, "Cuboctaédrica (Compacta)"))) :=
  ⟨by norm_num, by norm_num,
   classify_threshold_boundaries (1/100) (by norm_num) (by norm_num)⟩

/-- C7: for a fixed positive cation radius and positive anion radii
`R1 ≤ R2`, the ratio is non-increasing in the anion radius and therefore the
predicted coordination number at `R2` is at most the one at `R1`. -/
theorem classify_antitone_in_anion (rc R1 R2 : ℚ) (hc : 0 < rc)
    (h1 : 0 < R1) (h12 : R1 ≤ R2) :
    (classify rc R2).1 ≤ (classify rc R1).1 ∧
    (classify rc R2).2.1 ≤ (classify rc R1).2.1 := by
  have h2 : 0 < R2 := lt_of_lt_of_le h1 h12
  have hr1 : relacion_r_R rc R1 = rc / R1 := if_pos h1
  have hr2 : relacion_r_R rc R2 = rc / R2 := if_pos h2
  have hmono : rc / R2 ≤ rc / R1 := by gcongr
  constructor
  · show relacion_r_R rc R2 ≤ relacion_r_R rc R1
    rw [hr1, hr2]; exact hmono
  · show (nc_geo_predicho (relacion_r_R rc R2)).1 ≤
      (nc_geo_predicho (relacion_r_R rc R1)).1
    rw [hr1, hr2]; exact nc_geo_mono _ _ hmono

theorem classify_antitone_in_anion_witness :
    (0 : ℚ) < 1 ∧ (0 : ℚ) < 1 ∧ (1 : ℚ) ≤ 2 ∧
      ((classify 1 2).1 ≤ (classify 1 1).1 ∧
       (classify 1 2).2.1 ≤ (classify 1 1).2.1) :=
  ⟨one_pos, one_pos, by norm_num,
   classify_antitone_in_anion 1 1 2 one_pos one_pos (by norm_num)⟩

/-- C8: `classify` is deterministic and stateless — it is a pure function of
its two arguments over constant data, so two invocations with identical
inputs yield identical results (same ratio, coordination number and
geometry), independent of any past calls. -/
theorem classify_deterministic (rc ra rc' ra' : ℚ)
    (hc : rc = rc') (ha : ra = ra') :
    classify rc ra = classify rc' ra' := by
  rw [hc, ha]

theorem classify_deterministic_witness :
    classify (55/100) (14/10) = classify (55/100) (14/10) :=
  classify_deterministic (55/100) (14/10) (55/100) (14/10) rfl rfl

/-- C9: the 2D/3D transition radius of line 283 equals
`cation_radius / 0.225` for every cation radius, and for a positive cation
radius it is exactly the anion radius at which the ratio sits on the
NC = 3 / NC = 4 boundary `0.225`. (At `cation_radius = 1` it evaluates to
`40/9 ≈ 4.444`, checked in the witness.) -/
theorem transition_radius_correct (rc : ℚ) :
    R_transicion rc = rc / (225/1000) ∧
    (0 < rc → relacion_r_R rc (R_transicion rc) = 225/1000) := by
  refine ⟨rfl, fun h => ?_⟩
  have hne : rc ≠ 0 := h.ne'
  have hpos : 0 < R_transicion rc := by
    rw [R_transicion]; positivity
  rw [relacion_r_R, if_pos hpos, R_transicion,
    div_div_eq_mul_div, mul_comm, mul_div_assoc, div_self hne, mul_one]

theorem transition_radius_correct_witness :
    R_transicion 1 = 1 / (225/1000) ∧
    relacion_r_R 1 (R_transicion 1) = 225/1000 ∧
    R_transicion 1 = 40/9 :=
  ⟨(transition_radius_correct 1).1, (transition_radius_correct 1).2 one_pos,
   by norm_num [R_transicion]⟩

/-- C10: for a non-positive cation radius with a positive anion radius (an
input the UI sliders cannot produce but the classifier accepts), the ratio
is non-positive — in particular below the lowest threshold 0.155 — and the
result is coordination number 3 with the triangular geometry, with no
failure. -/
theorem classify_nonpositive_cation (rc ra : ℚ) (hc : rc ≤ 0) (ha : 0 < ra) :
    (classify rc ra).1 ≤ 0 ∧ (classify rc ra).2 = (3, "Triangular") := by
  have hr : relacion_r_R rc ra = rc / ra := if_pos ha
  have hnp : rc / ra ≤ 0 := div_nonpos_iff.mpr (Or.inr ⟨hc, ha.le⟩)
  constructor
  · show relacion_r_R rc ra ≤ 0
    rw [hr]; exact hnp
  · show nc_geo_predicho (relacion_r_R rc ra) = _
    rw [hr]
    exact nc_geo_band3 _ (by linarith)

theorem classify_nonpositive_cation_witness :
    (-1 : ℚ) ≤ 0 ∧ (0 : ℚ) < 2 ∧
      ((classify (-1) 2).1 ≤ 0 ∧ (classify (-1) 2).2 = (3, "Triangular")) :=
  ⟨by norm_num, by norm_num,
   classify_nonpositive_cation (-1) 2 (by norm_num) (by norm_num)⟩

end CoordinatioNumber
